import Mathlib

/-!
Verification development for the `mesosphere/performance` supervisor watcher
(`supervisor/watch/watcher.go`) and the api-server configuration constructor
(`api/cmd/api-server/config.go`).

The Go source is shallowly embedded: pure record constructions become Lean
structure literals, the aggregator and dispatcher loops become explicit step
functions on state, and the effect of external collaborators (systemd
enumeration, per-PID CPU sampling, sink `Put` calls, environment variables,
flag parsing, `time.ParseDuration`) is passed in as function parameters.
CPU usage values (Go `float64`) are only ever copied, never computed with, so
they are carried as rationals; instants and durations (Go `time.Time` /
`time.Duration`) are carried as naturals.
-/

/- ## Data model -/

/-- CPU usage of one process, as produced by the sampler adapter
(`proc.CPUPidUsage`, external to the two source files; fields `User`,
`System`, `Total` are the ones `watcher.go` reads). -/
structure CPUPidUsage where
  User : ℚ
  System : ℚ
  Total : ℚ
deriving DecidableEq

/-- `SystemdUnitStatus` from `watcher.go`: systemd unit name, pid, and the CPU
utilization sampled for it. -/
structure SystemdUnitStatus where
  Name : String
  Pid : Nat
  CPUUsage : CPUPidUsage
deriving DecidableEq

/-- The sink-bound record (`backend.BigQuerySchema`); its fields are the ones
assigned in `watcher.go`'s `ToBigQuerySchema` plus `Hostname`, which the
aggregator fills in afterwards.  Go leaves `Hostname` at its zero value `""`
in the struct literal. -/
structure BigQuerySchema where
  Name : String
  Timestamp : Nat
  UserCPU_Usage : ℚ
  SystemCPU_Usage : ℚ
  TotalCPU_Usage : ℚ
  Hostname : String
  Instance : String
deriving DecidableEq

/-- `SystemdUnitStatus.ToBigQuerySchema` from `watcher.go`.  The Go method
calls `time.Now()` for the timestamp; the current instant is passed in as
`now`.  Note the source assigns `s.CPUUsage.User` to BOTH `UserCPU_Usage`
and `SystemCPU_Usage`. -/
def SystemdUnitStatus.ToBigQuerySchema (s : SystemdUnitStatus) (now : Nat) : BigQuerySchema :=
  { Name := s.Name
    Timestamp := now
    UserCPU_Usage := s.CPUUsage.User
    SystemCPU_Usage := s.CPUUsage.User
    TotalCPU_Usage := s.CPUUsage.Total
    Hostname := ""
    Instance := toString s.Pid }

/-- Modelled from the spec: `backend.BigQueryRow` (the row type handed to
sinks) is not under `src/`; the spec's Row carries exactly the
`BigQuerySchema` payload, so the conversion is modelled as a wrapper. -/
structure BigQueryRow where
  schema : BigQuerySchema
deriving DecidableEq

/-- Modelled from the spec: `BigQuerySchema.ToBigQueryRow` wraps the schema
record into the sink-bound row without changing its fields. -/
def BigQuerySchema.ToBigQueryRow (s : BigQuerySchema) : BigQueryRow :=
  ⟨s⟩

/-- The configuration fields of `config.Config` that `watcher.go` reads
(the `config` package itself is external to `src/`). -/
structure Config where
  FlagBufferSize : Nat
  UploadInterval : Nat
  Wait : Nat
  CPUUsageInterval : Nat
deriving DecidableEq

/- ## Batch uploader (`upload` in watcher.go) -/

/-- A storage sink (`backend.Backend`): a stable identifier and a `Put`
operation.  `Put` is external; its outcome on a given batch is modelled as
`none` for success or `some msg` for the error message. -/
structure Backend where
  ID : String
  Put : List BigQueryRow → Option String

/-- `upload` from `watcher.go`, instrumented with the trace of sink calls:
it walks the backends in configuration order, calling `Put` on each; on the
first failure it stops and returns the error wrapped with that backend's
`ID`.  The first component lists the `ID`s of the backends whose `Put` was
actually invoked, in call order; the second is the returned error, `none`
meaning the Go function returned `nil`. -/
def upload (items : List BigQueryRow) : List Backend → List String × Option String
  | [] => ([], none)
  | b :: bs =>
    match b.Put items with
    | some e => ([b.ID], some ("Error uploading to backend " ++ b.ID ++ ": " ++ e))
    | none =>
      let rest := upload items bs
      (b.ID :: rest.1, rest.2)

/- ## Result aggregator (`processResult` in watcher.go) -/

/-- One input the aggregator's `select` can receive: the cancellation signal
(`ctx.Done()`), an externally pushed event (`eventChan`), or a sampling
result (`results`). -/
inductive AggInput where
  | shutdown
  | event (e : BigQuerySchema)
  | result (r : SystemdUnitStatus)
deriving DecidableEq

/-- The aggregator's mutable state in `processResult`: the open row buffer
`rows`, the last reset instant `updateTime`, and whether the function has
executed `return`. -/
structure AggState where
  rows : List BigQueryRow
  updateTime : Nat
  returned : Bool
deriving DecidableEq

/-- Initial aggregator state: empty buffer, `updateTime := time.Now()` at
entry to `processResult`. -/
def initAggState (startTime : Nat) : AggState :=
  ⟨[], startTime, false⟩

/-- The row built from a sampling result in the `results` branch of
`processResult`: `ToBigQuerySchema` followed by `row.Hostname = hostname`,
then `ToBigQueryRow`. -/
def mkResultRow (hostname : String) (now : Nat) (r : SystemdUnitStatus) : BigQueryRow :=
  ({ r.ToBigQuerySchema now with Hostname := hostname }).ToBigQueryRow

/-- One iteration of the `for { select ... } }` loop of `processResult`.
`now` is the current instant (`time.Now()` / `time.Since`), and `uploadOk`
abstracts whether the `upload` call of this iteration (if any) returns
`nil`.  The second component of the output collects the batches handed to
`upload` during this iteration.

Source behaviour embedded here: on `ctx.Done()` the function returns; on an
event it uploads the singleton batch `[event.ToBigQueryRow()]` and leaves
the buffer untouched; on a result it appends the row, and if
`len(rows) >= cfg.FlagBufferSize || time.Since(updateTime) >= cfg.UploadInterval`
it hands `rows` to `upload` — resetting `rows` and `updateTime` only when
the upload succeeded (`continue` on error skips the reset). -/
def processResultStep (cfg : Config) (hostname : String) (now : Nat) (uploadOk : Bool)
    (s : AggState) : AggInput → AggState × List (List BigQueryRow)
  | .shutdown => ({ s with returned := true }, [])
  | .event e => (s, [[e.ToBigQueryRow]])
  | .result r =>
    let rows := s.rows ++ [mkResultRow hostname now r]
    if cfg.FlagBufferSize ≤ rows.length ∨ cfg.UploadInterval ≤ now - s.updateTime then
      if uploadOk then
        ({ s with rows := [], updateTime := now }, [rows])
      else
        ({ s with rows := rows }, [rows])
    else
      ({ s with rows := rows }, [])

/-- One scheduled input for an aggregator run: the instant at which it is
received, whether an `upload` issued while handling it succeeds, and the
input itself. -/
structure AggEvent where
  now : Nat
  uploadOk : Bool
  input : AggInput
deriving DecidableEq

/-- A run of the aggregator loop over a finite schedule of inputs, collecting
every batch handed to `upload`.  After the loop has returned, remaining
scheduled inputs are not processed. -/
def runAgg (cfg : Config) (hostname : String) : AggState → List AggEvent →
    AggState × List (List BigQueryRow)
  | s, [] => (s, [])
  | s, ev :: evs =>
    if s.returned then (s, [])
    else
      let step := processResultStep cfg hostname ev.now ev.uploadOk s ev.input
      let rest := runAgg cfg hostname step.1 evs
      (rest.1, step.2 ++ rest.2)

/- ## Unit poll dispatcher (`StartWatcher`, `processUnits`, `handleUnit`) -/

/-- `systemd.SystemdUnitProps` as read by `watcher.go` (external package;
only `Name` and `Pid` are used). -/
structure SystemdUnitProps where
  Name : String
  Pid : Nat
deriving DecidableEq

/-- `handleUnit` from `watcher.go`, with the sampler adapter
(`proc.LoadByPID`) passed in as `sample : pid -> usage or error` and the
cancellation state of `ctx` at the send point as `cancelled`.  It returns
the status sent on the result channel, or `none` when nothing is emitted:
on a sampling error the unit is skipped (logged), and when the context is
done the send is skipped. -/
def handleUnit (sample : Nat → Except String CPUPidUsage) (cancelled : Bool)
    (unit : SystemdUnitProps) : Option SystemdUnitStatus :=
  match sample unit.Pid with
  | .error _ => none
  | .ok usage =>
    if cancelled then none
    else some { Name := unit.Name, Pid := unit.Pid, CPUUsage := usage }

/-- `processUnits` from `watcher.go`: one tick.  `enum` is the outcome of
the unit enumerator `systemd.GetSystemdUnitsProps()`.  On enumerator
failure the wrapped error is returned and no sampling task is started; on
success one task per unit runs `handleUnit` and the tick's emitted results
are collected (the Go tasks run concurrently and results reach the channel
in completion order; the claims proved below are order-independent, so the
emissions are listed in unit order). -/
def processUnits (enum : Except String (List SystemdUnitProps))
    (sample : Nat → Except String CPUPidUsage) (cancelled : Bool) :
    Except String (List SystemdUnitStatus) :=
  match enum with
  | .error e => .error ("Unable to get a list of systemd units: " ++ e)
  | .ok units => .ok (units.filterMap (handleUnit sample cancelled))

/-- Observable actions of one iteration of `StartWatcher`'s `for` loop. -/
structure WatcherIter where
  ranProcessUnits : Bool
  closedChan : Bool
  doubleClose : Bool
  returned : Bool
deriving DecidableEq

/-- The dispatcher loop's state across iterations: whether `resultChan` has
already been closed. -/
structure WatcherState where
  chanClosed : Bool
deriving DecidableEq

/-- One iteration of `StartWatcher`'s `for` loop.  `done` says whether
`ctx.Done()` is ready when the `select` runs.  The body always calls
`processUnits` first; then the `select` either takes the `ctx.Done()`
branch — logging "Shutting down watcher" and executing `close(resultChan)`
— or waits out `time.After(cfg.Wait)`.  Neither branch contains a `return`
or `break`, so `returned` is `false` on every path; closing when
`chanClosed` already holds records a close of an already-closed channel
(a run-time panic in Go). -/
def watcherIter (done : Bool) (s : WatcherState) : WatcherIter × WatcherState :=
  ({ ranProcessUnits := true
     closedChan := done
     doubleClose := done && s.chanClosed
     returned := false },
   { chanClosed := s.chanClosed || done })

/-- The dispatcher's state before iteration `n`, given the schedule
`sched : iteration -> is ctx done there`.  Iteration 0 starts with the
freshly made (open) `resultChan`. -/
def watcherRun (sched : Nat → Bool) : Nat → WatcherState
  | 0 => ⟨false⟩
  | n + 1 => (watcherIter (sched n) (watcherRun sched n)).2

/-- The observable actions of iteration `n` of `StartWatcher`'s loop. -/
def watcherIterAt (sched : Nat → Bool) (n : Nat) : WatcherIter :=
  (watcherIter (sched n) (watcherRun sched n)).1

/- ## api-server configuration (`NewConfig` in config.go) -/

/-- `Config` from `api/cmd/api-server/config.go`. -/
structure APIConfig where
  FlagVerbose : Bool
  FlagProjectID : String
  FlagDataset : String
  FlagEventStreamTableName : String
  FlagEventBuffer : Int
  FlagEventFlushInterval : String
  EventUploadInterval : Int
deriving DecidableEq

/-- The default `Config` literal built at the top of `NewConfig`
(`EventUploadInterval` is the Go zero value until `ParseDuration` runs). -/
def defaultAPIConfig : APIConfig :=
  { FlagVerbose := false
    FlagProjectID := "massive-bliss-781"
    FlagDataset := "dcos_performance"
    FlagEventStreamTableName := "event_stream"
    FlagEventBuffer := 500
    FlagEventFlushInterval := "10s"
    EventUploadInterval := 0 }

/-- The environment-variable overrides in `NewConfig`: each of
`API_SERVER_PROJECT_ID`, `API_SERVER_DATASET`, `API_SERVER_FLUSH_INTERVAL`
replaces the corresponding field when `os.Getenv` returns a non-empty
string. -/
def applyEnv (env : String → String) (c : APIConfig) : APIConfig :=
  let c := if env "API_SERVER_PROJECT_ID" ≠ "" then
      { c with FlagProjectID := env "API_SERVER_PROJECT_ID" } else c
  let c := if env "API_SERVER_DATASET" ≠ "" then
      { c with FlagDataset := env "API_SERVER_DATASET" } else c
  if env "API_SERVER_FLUSH_INTERVAL" ≠ "" then
      { c with FlagEventFlushInterval := env "API_SERVER_FLUSH_INTERVAL" } else c

/-- The values `flagSet.Parse` writes into the config's flag fields: `none`
means the flag was absent from the command line and the field keeps its
current value (`setFlags` registers each flag with the field's current
value as its default). -/
structure FlagOverrides where
  verbose : Option Bool
  projectID : Option String
  dataset : Option String
  eventStreamTable : Option String
  eventBuffer : Option Int
  eventFlushInterval : Option String

/-- Applying parsed flag overrides to the config, as `setFlags` +
`flagSet.Parse` do. -/
def applyFlags (fo : FlagOverrides) (c : APIConfig) : APIConfig :=
  { c with
    FlagVerbose := fo.verbose.getD c.FlagVerbose
    FlagProjectID := fo.projectID.getD c.FlagProjectID
    FlagDataset := fo.dataset.getD c.FlagDataset
    FlagEventStreamTableName := fo.eventStreamTable.getD c.FlagEventStreamTableName
    FlagEventBuffer := fo.eventBuffer.getD c.FlagEventBuffer
    FlagEventFlushInterval := fo.eventFlushInterval.getD c.FlagEventFlushInterval }

/-- `NewConfig` from `config.go`.  The external collaborators are passed in:
`env` is `os.Getenv`, `flagParse` is `flagSet.Parse` on `args[1:]` (already
reduced to the overrides it produces, or a parse error), and
`parseDuration` is `time.ParseDuration`.  The function rejects an empty
argument list, applies defaults, environment and flags, then parses the
flush interval; a duration parse error is returned and no config is
produced.  No other validation is performed on the resulting fields. -/
def NewConfig (args : List String) (env : String → String)
    (flagParse : List String → Except String FlagOverrides)
    (parseDuration : String → Except String Int) : Except String APIConfig :=
  if args.length = 0 then .error "arguments cannot be empty"
  else
    let c := applyEnv env defaultAPIConfig
    match flagParse args.tail with
    | .error e => .error e
    | .ok fo =>
      let c := applyFlags fo c
      match parseDuration c.FlagEventFlushInterval with
      | .error e => .error e
      | .ok d => .ok { c with EventUploadInterval := d }

/- ## Concrete instances used in counterexamples and witnesses -/

/-- A sample with three pairwise distinct CPU values. -/
def usageABC : CPUPidUsage := ⟨1, 2, 3⟩

/-- A first concrete sampling result. -/
def statusA : SystemdUnitStatus := ⟨"unitA.service", 11, usageABC⟩

/-- A second concrete sampling result. -/
def statusB : SystemdUnitStatus := ⟨"unitB.service", 12, usageABC⟩

/-- A configuration whose periodic batch flushes at one row
(`FlagBufferSize = 1`) with a long `UploadInterval`. -/
def cfgCount1 : Config := ⟨1, 1000, 5, 1⟩

/-- A configuration with a large row threshold and a short
`UploadInterval` of 10. -/
def cfgAge10 : Config := ⟨100, 10, 5, 1⟩

/-- Does this aggregator input carry a sampling result? -/
def isResultInput : AggInput → Bool
  | .result _ => true
  | _ => false

/-- Is every input of the schedule a non-result (shutdown or event)? -/
def noResultInput (tr : List AggEvent) : Bool :=
  tr.all fun ev => !(isResultInput ev.input)

/-- A backend whose `Put` always succeeds. -/
def okBackend : Backend := ⟨"bigquery", fun _ => none⟩

/-- A backend whose `Put` always fails with "boom". -/
def failBackend : Backend := ⟨"gcs", fun _ => some "boom"⟩

/-- A backend that would fail were it ever called. -/
def afterBackend : Backend := ⟨"s3", fun _ => some "never called"⟩

/-- A sampler that fails for pid 1 and succeeds elsewhere. -/
def sampleFail1 : Nat → Except String CPUPidUsage := fun pid =>
  if pid = 1 then .error "process vanished" else .ok usageABC

/-- Flag overrides carrying a negative event buffer size, as produced by
parsing `-event-buffer-size -5`. -/
def foNegBuffer : FlagOverrides :=
  { verbose := none, projectID := none, dataset := none,
    eventStreamTable := none, eventBuffer := some (-5), eventFlushInterval := none }

/-- A flag-parse outcome returning `foNegBuffer`. -/
def flagParseNegBuffer : List String → Except String FlagOverrides :=
  fun _ => .ok foNegBuffer

/-- A `time.ParseDuration` model that accepts exactly `"10s"`. -/
def parseDuration10s : String → Except String Int := fun s =>
  if s = "10s" then .ok 10000000000 else .error ("time: invalid duration " ++ s)

/-- An environment with no variables set. -/
def emptyEnv : String → String := fun _ => ""

/-- An environment setting only `API_SERVER_FLUSH_INTERVAL`, to `"bogus"`. -/
def envBogusInterval : String → String := fun k =>
  if k = "API_SERVER_FLUSH_INTERVAL" then "bogus" else ""

/- ## Theorems -/

/-- C1: the claim states that a Row's systemCPU equals the sample's system
value (the three CPU fields independently sourced).  The source assigns
`s.CPUUsage.User` to `SystemCPU_Usage`: at a sample with user = 1,
system = 2, total = 3 the built row carries user = 1, systemCPU = 1 (the
USER value, differing from the system value 2) and total = 3. -/
theorem C1_systemCPU_copied_from_user :
    ((SystemdUnitStatus.mk "dbus.service" 42 usageABC).ToBigQuerySchema 100).UserCPU_Usage
        = usageABC.User ∧
    ((SystemdUnitStatus.mk "dbus.service" 42 usageABC).ToBigQuerySchema 100).SystemCPU_Usage
        = usageABC.User ∧
    ((SystemdUnitStatus.mk "dbus.service" 42 usageABC).ToBigQuerySchema 100).SystemCPU_Usage
        ≠ usageABC.System ∧
    ((SystemdUnitStatus.mk "dbus.service" 42 usageABC).ToBigQuerySchema 100).TotalCPU_Usage
        = usageABC.Total := by
  refine ⟨rfl, rfl, ?_, rfl⟩
  decide

/-- C8: an externally pushed event is handed to the uploader immediately as
its own singleton batch `[event.ToBigQueryRow()]`, and the aggregator state
(in particular the open periodic buffer and its age clock) is unchanged. -/
theorem C8_event_uploaded_as_singleton_batch (cfg : Config) (hostname : String)
    (now : Nat) (uploadOk : Bool) (s : AggState) (e : BigQuerySchema) :
    processResultStep cfg hostname now uploadOk s (.event e) = (s, [[e.ToBigQueryRow]]) :=
  rfl

/-- Helper: `upload` over backends that all succeed calls every backend in
order and returns no error. -/
theorem upload_of_all_ok (items : List BigQueryRow) (bs : List Backend)
    (h : ∀ x ∈ bs, x.Put items = none) :
    upload items bs = (bs.map Backend.ID, none) := by
  induction bs with
  | nil => rfl
  | cons b bs ih =>
    have hb : b.Put items = none := h b (List.mem_cons_self b bs)
    simp [upload, hb, ih fun x hx => h x (List.mem_cons_of_mem b hx)]

/-- Helper: `upload` stops at the first failing backend, calling exactly the
preceding backends and it, and wraps the error with its identifier. -/
theorem upload_of_first_failure (items : List BigQueryRow) (bs₁ : List Backend)
    (b : Backend) (bs₂ : List Backend) (e : String)
    (h₁ : ∀ x ∈ bs₁, x.Put items = none) (hb : b.Put items = some e) :
    upload items (bs₁ ++ b :: bs₂) =
      (bs₁.map Backend.ID ++ [b.ID],
        some ("Error uploading to backend " ++ b.ID ++ ": " ++ e)) := by
  induction bs₁ with
  | nil => simp [upload, hb]
  | cons a as ih =>
    have ha : a.Put items = none := h₁ a (List.mem_cons_self a as)
    simp [upload, ha, ih fun x hx => h₁ x (List.mem_cons_of_mem a hx)]

/-- C7: the uploader calls the sinks' put operations in configuration
order; if a sink's put fails it returns an error wrapping that sink's
identifier and calls no later sink for that batch; if every put succeeds it
returns no error. -/
theorem C7_upload_order_short_circuit_and_success (items : List BigQueryRow)
    (bs : List Backend) :
    ((∀ x ∈ bs, x.Put items = none) →
      upload items bs = (bs.map Backend.ID, none)) ∧
    (∀ (bs₁ : List Backend) (b : Backend) (bs₂ : List Backend) (e : String),
      bs = bs₁ ++ b :: bs₂ → (∀ x ∈ bs₁, x.Put items = none) → b.Put items = some e →
      upload items bs =
        (bs₁.map Backend.ID ++ [b.ID],
          some ("Error uploading to backend " ++ b.ID ++ ": " ++ e))) :=
  ⟨fun h => upload_of_all_ok items bs h,
   fun bs₁ b bs₂ e hbs h₁ hb => hbs ▸ upload_of_first_failure items bs₁ b bs₂ e h₁ hb⟩

/-- Witness for C7: with a succeeding backend, then a failing one, then a
third, exactly the first two are called and the error names the second. -/
theorem C7_witness :
    upload [] [okBackend, failBackend, afterBackend] =
      (["bigquery", "gcs"], some "Error uploading to backend gcs: boom") := by
  have h := (C7_upload_order_short_circuit_and_success [] [okBackend, failBackend, afterBackend]).2
    [okBackend] failBackend [afterBackend] "boom" rfl
    (by intro x hx; rw [List.mem_singleton] at hx; subst hx; rfl) rfl
  exact h

/-- C9: an enumerator failure makes the tick return the wrapped error with
no result emitted; a sampling failure for one unit removes exactly that
unit's emission, leaving every other unit of the tick unaffected, and a
unit whose sampling succeeds (absent cancellation) emits its status. -/
theorem C9_enumeration_and_sampling_failure_isolation
    (sample : Nat → Except String CPUPidUsage) (cancelled : Bool) :
    (∀ e, processUnits (.error e) sample cancelled =
      .error ("Unable to get a list of systemd units: " ++ e)) ∧
    (∀ (us₁ us₂ : List SystemdUnitProps) (u : SystemdUnitProps) (e : String),
      sample u.Pid = .error e →
      processUnits (.ok (us₁ ++ u :: us₂)) sample cancelled =
        processUnits (.ok (us₁ ++ us₂)) sample cancelled) ∧
    (∀ (u : SystemdUnitProps) (usage : CPUPidUsage),
      sample u.Pid = .ok usage →
      handleUnit sample false u = some ⟨u.Name, u.Pid, usage⟩) := by
  refine ⟨fun e => rfl, ?_, ?_⟩
  · intro us₁ us₂ u e he
    simp [processUnits, List.filterMap_append, List.filterMap_cons, handleUnit, he]
  · intro u usage hu
    simp [handleUnit, hu]

/-- Witness for C9: with a sampler failing for pid 1 among pids 0, 1, 2,
the tick's emissions equal those of the tick without the failing unit. -/
theorem C9_witness :
    processUnits (.ok [⟨"a.service", 0⟩, ⟨"b.service", 1⟩, ⟨"c.service", 2⟩])
        sampleFail1 false =
      processUnits (.ok [⟨"a.service", 0⟩, ⟨"c.service", 2⟩]) sampleFail1 false :=
  (C9_enumeration_and_sampling_failure_isolation sampleFail1 false).2.1
    [⟨"a.service", 0⟩] [⟨"c.service", 2⟩] ⟨"b.service", 1⟩ "process vanished" rfl

/-- C3: evaluation of the dispatcher loop in a run where cancellation has
fired from the start.  The claimed behaviour is that no further tick starts
after cancellation; instead, iteration 0 takes the shutdown branch and
closes the result channel, yet iteration 1 again runs `processUnits` (a
further tick), closes the channel again, and no iteration ever returns —
the loop body lacks a `return` after the shutdown branch. -/
theorem C3_tick_started_after_cancellation :
    (watcherIterAt (fun _ => true) 0).closedChan = true ∧
    (watcherIterAt (fun _ => true) 1).ranProcessUnits = true ∧
    (watcherIterAt (fun _ => true) 1).closedChan = true ∧
    (∀ n, (watcherIterAt (fun _ => true) n).returned = false) :=
  ⟨rfl, rfl, rfl, fun _ => rfl⟩

/-- C4: in every run in which the cancellation signal fires (at some
iteration `n`, and stays fired thereafter), no iteration of `StartWatcher`'s
loop executes a return; iteration `n` takes the shutdown branch and closes
the result channel; and iteration `n + 1` re-enters `processUnits` and
executes `close` on the already-closed channel. -/
theorem C4_watcher_never_returns_and_double_closes (sched : Nat → Bool) (n : Nat)
    (hmono : ∀ m k, m ≤ k → sched m = true → sched k = true)
    (hn : sched n = true) :
    (∀ k, (watcherIterAt sched k).returned = false) ∧
    (watcherIterAt sched n).closedChan = true ∧
    (watcherIterAt sched (n + 1)).ranProcessUnits = true ∧
    (watcherIterAt sched (n + 1)).doubleClose = true := by
  refine ⟨fun k => rfl, ?_, rfl, ?_⟩
  · simp [watcherIterAt, watcherIter, hn]
  · have h1 : sched (n + 1) = true := hmono n (n + 1) (Nat.le_succ n) hn
    simp [watcherIterAt, watcherIter, watcherRun, hn, h1]

/-- Witness for C4: with cancellation fired from iteration 0 onward, the
second iteration closes the already-closed result channel. -/
theorem C4_witness :
    ((fun _ : Nat => true) 0 = true) ∧
    (watcherIterAt (fun _ => true) (0 + 1)).doubleClose = true :=
  ⟨rfl, (C4_watcher_never_returns_and_double_closes (fun _ => true) 0
    (fun _ _ _ h => h) rfl).2.2.2⟩

/-- Counterexample to C2: with a row threshold of 1, a first sample whose
upload fails and a second whose upload succeeds, the batches handed to the
uploader are `[[row1], [row1, row2]]` — the first row is visible in two
batches handed to the uploader (it is counted in 2 of the handed batches),
refuting "no row is ever visible in two batches handed to the uploader". -/
theorem C2_counterexample :
    (runAgg cfgCount1 "host" (initAggState 0)
        [⟨0, false, .result statusA⟩, ⟨3, true, .result statusB⟩]).2 =
      [[mkResultRow "host" 0 statusA],
       [mkResultRow "host" 0 statusA, mkResultRow "host" 3 statusB]] ∧
    ((runAgg cfgCount1 "host" (initAggState 0)
        [⟨0, false, .result statusA⟩, ⟨3, true, .result statusB⟩]).2.countP
      fun b => decide (mkResultRow "host" 0 statusA ∈ b)) = 2 := by
  constructor <;> decide

/-- C2 as amended: when the upload of the periodic batch fails, the batch's
rows are retained in the buffer (not discarded) and re-handed to the
uploader together with later rows at the next flush trigger — a row may
appear in several batches handed to the uploader — while a successful
upload empties the buffer and resets the age clock. -/
theorem C2_failed_upload_retains_rows (cfg : Config) (hostname : String)
    (now : Nat) (s : AggState) (r : SystemdUnitStatus)
    (hflush : cfg.FlagBufferSize ≤ (s.rows ++ [mkResultRow hostname now r]).length ∨
      cfg.UploadInterval ≤ now - s.updateTime) :
    (processResultStep cfg hostname now false s (.result r)).2 =
      [s.rows ++ [mkResultRow hostname now r]] ∧
    (processResultStep cfg hostname now false s (.result r)).1.rows =
      s.rows ++ [mkResultRow hostname now r] ∧
    (processResultStep cfg hostname now false s (.result r)).1.updateTime = s.updateTime ∧
    (processResultStep cfg hostname now true s (.result r)).1.rows = [] ∧
    (processResultStep cfg hostname now true s (.result r)).1.updateTime = now := by
  simp only [processResultStep, if_pos hflush]
  exact ⟨rfl, rfl, rfl, rfl, rfl⟩

/-- Witness for C2's amended theorem: at threshold 1 the first appended row
triggers a flush; with the upload failing, the buffer retains the row. -/
theorem C2_witness :
    (cfgCount1.FlagBufferSize ≤
      ((initAggState 0).rows ++ [mkResultRow "host" 0 statusA]).length ∨
      cfgCount1.UploadInterval ≤ 0 - (initAggState 0).updateTime) ∧
    (processResultStep cfgCount1 "host" 0 false (initAggState 0) (.result statusA)).1.rows =
      (initAggState 0).rows ++ [mkResultRow "host" 0 statusA] :=
  ⟨Or.inl (by decide),
   (C2_failed_upload_retains_rows cfgCount1 "host" 0 (initAggState 0) statusA
     (Or.inl (by decide))).2.1⟩

/-- Counterexample to C5: with a row threshold of 1, appending a row at
instant 5 hands the batch to the uploader (a flush), the upload fails, and
the age clock is NOT reset: `updateTime` still reads 0, not 5 — refuting
"every flush (including count-triggered ones) resets the age clock". -/
theorem C5_counterexample :
    (processResultStep cfgCount1 "host" 5 false (initAggState 0) (.result statusA)).2 =
      [[mkResultRow "host" 5 statusA]] ∧
    (processResultStep cfgCount1 "host" 5 false (initAggState 0)
        (.result statusA)).1.updateTime = 0 ∧
    (0 : Nat) ≠ 5 := by
  decide

/-- C5 as amended: upon appending a row, the open periodic batch is handed
to the uploader if and only if its row count reached the configured maximum
or its age (time since the last reset) reached the configured maximum age;
but only a successful upload resets the age clock — a failed hand-off
leaves `updateTime` unchanged. -/
theorem C5_flush_iff_threshold_and_reset_on_success (cfg : Config) (hostname : String)
    (now : Nat) (uploadOk : Bool) (s : AggState) (r : SystemdUnitStatus) :
    ((processResultStep cfg hostname now uploadOk s (.result r)).2 ≠ [] ↔
      cfg.FlagBufferSize ≤ (s.rows ++ [mkResultRow hostname now r]).length ∨
        cfg.UploadInterval ≤ now - s.updateTime) ∧
    (processResultStep cfg hostname now uploadOk s (.result r)).1.updateTime =
      if (cfg.FlagBufferSize ≤ (s.rows ++ [mkResultRow hostname now r]).length ∨
          cfg.UploadInterval ≤ now - s.updateTime) ∧ uploadOk = true
        then now else s.updateTime := by
  by_cases hc : cfg.FlagBufferSize ≤ (s.rows ++ [mkResultRow hostname now r]).length ∨
      cfg.UploadInterval ≤ now - s.updateTime
  · cases uploadOk <;>
    · simp only [processResultStep]
      rw [if_pos hc]
      have hc2 : cfg.FlagBufferSize ≤ s.rows.length + 1 ∨
          cfg.UploadInterval ≤ now - s.updateTime := by simpa using hc
      simp [hc2]
  · cases uploadOk <;>
    · simp only [processResultStep]
      rw [if_neg hc]
      have hc2 : ¬(cfg.FlagBufferSize ≤ s.rows.length + 1 ∨
          cfg.UploadInterval ≤ now - s.updateTime) := by simpa using hc
      simp [hc2]

/-- Counterexample to C6: with `UploadInterval = 10`, a single row is
appended at instant 0 (no flush: 1 < 100 rows and age 0 < 10); no further
row ever arrives and the aggregator shuts down at instant 1000000, far past
the maximum age.  No batch is ever handed to the uploader, and the row is
still sitting in the buffer — refuting "handed within maxBatchAge of its
first row being appended". -/
theorem C6_counterexample :
    (runAgg cfgAge10 "host" (initAggState 0)
        [⟨0, true, .result statusA⟩, ⟨1000000, true, .shutdown⟩]).2 =
      ([] : List (List BigQueryRow)) ∧
    (runAgg cfgAge10 "host" (initAggState 0)
        [⟨0, true, .result statusA⟩, ⟨1000000, true, .shutdown⟩]).1.rows =
      [mkResultRow "host" 0 statusA] ∧
    cfgAge10.UploadInterval ≤ 1000000 - 0 := by
  decide

/-- C6 as amended: the flush triggers are evaluated only when a sampling
result appends a row.  Over any schedule containing no sampling result, the
open periodic buffer is never handed to the uploader and is left exactly as
it was (only externally pushed events are uploaded, each as a singleton
batch). -/
theorem C6_no_flush_without_append (cfg : Config) (hostname : String)
    (s : AggState) (tr : List AggEvent) (h : noResultInput tr = true) :
    (runAgg cfg hostname s tr).1.rows = s.rows ∧
    ∀ b ∈ (runAgg cfg hostname s tr).2, ∃ e : BigQuerySchema, b = [e.ToBigQueryRow] := by
  induction tr generalizing s with
  | nil =>
    refine ⟨rfl, ?_⟩
    intro b hb
    simp [runAgg] at hb
  | cons ev evs ih =>
    simp only [noResultInput, List.all_cons, Bool.and_eq_true] at h
    obtain ⟨h1, h2⟩ := h
    have h' : noResultInput evs = true := h2
    cases hr : s.returned with
    | true =>
      refine ⟨by simp [runAgg, hr], ?_⟩
      intro b hb
      simp [runAgg, hr] at hb
    | false =>
      cases hin : ev.input with
      | shutdown =>
        have hrest := ih (s := { s with returned := true }) h'
        refine ⟨?_, ?_⟩
        · simpa [runAgg, hr, processResultStep, hin] using hrest.1
        · intro b hb
          simp [runAgg, hr, processResultStep, hin] at hb
          exact hrest.2 b hb
      | event e =>
        have hrest := ih (s := s) h'
        refine ⟨?_, ?_⟩
        · simpa [runAgg, hr, processResultStep, hin] using hrest.1
        · intro b hb
          simp [runAgg, hr, processResultStep, hin] at hb
          rcases hb with rfl | hb
          · exact ⟨e, rfl⟩
          · exact hrest.2 b hb
      | result r =>
        rw [hin] at h1
        simp [isResultInput] at h1

/-- Witness for C6's amended theorem: a shutdown-only schedule leaves a
one-row buffer unflushed. -/
theorem C6_witness :
    noResultInput [⟨7, true, .shutdown⟩] = true ∧
    (runAgg cfgAge10 "host" ⟨[mkResultRow "host" 0 statusA], 0, false⟩
        [⟨7, true, .shutdown⟩]).1.rows = [mkResultRow "host" 0 statusA] :=
  ⟨rfl, (C6_no_flush_without_append cfgAge10 "host"
    ⟨[mkResultRow "host" 0 statusA], 0, false⟩ [⟨7, true, .shutdown⟩] rfl).1⟩

/-- Counterexample to C10: `NewConfig` performs no validation of counts —
given flags carrying an event buffer size of -5 (and a parsable default
flush interval), it returns a configuration with `FlagEventBuffer = -5`
and no error, refuting "invalid values for durations and counts (such as a
non-positive event buffer size) are rejected". -/
theorem C10_counterexample :
    NewConfig ["api-server", "-event-buffer-size", "-5"] emptyEnv flagParseNegBuffer
        parseDuration10s =
      .ok { defaultAPIConfig with
              FlagEventBuffer := -5, EventUploadInterval := 10000000000 } ∧
    ({ defaultAPIConfig with
        FlagEventBuffer := -5,
        EventUploadInterval := 10000000000 } : APIConfig).FlagEventBuffer < 0 := by
  refine ⟨rfl, ?_⟩
  decide

/-- C10 as amended: if the resolved flush-interval string does not parse as
a duration, `NewConfig` returns that error and no configuration (before any
loop starts); but no further validation occurs — whenever the duration
parses, the configuration is returned exactly as assembled from defaults,
environment and flags, whatever its counts (e.g. a negative event buffer
size) and whatever the duration's sign. -/
theorem C10_duration_error_rejected_counts_not_validated (args : List String)
    (env : String → String) (flagParse : List String → Except String FlagOverrides)
    (parseDuration : String → Except String Int) (fo : FlagOverrides)
    (hargs : args.length ≠ 0) (hfp : flagParse args.tail = .ok fo) :
    (∀ e, parseDuration
        (applyFlags fo (applyEnv env defaultAPIConfig)).FlagEventFlushInterval = .error e →
      NewConfig args env flagParse parseDuration = .error e) ∧
    (∀ d, parseDuration
        (applyFlags fo (applyEnv env defaultAPIConfig)).FlagEventFlushInterval = .ok d →
      NewConfig args env flagParse parseDuration =
        .ok { applyFlags fo (applyEnv env defaultAPIConfig) with EventUploadInterval := d }) := by
  constructor <;> intro x hx <;> simp [NewConfig, hargs, hfp, hx]

/-- Witness for C10's amended theorem: with the flush interval set to
`"bogus"` through the environment, configuration construction fails with
the duration parse error. -/
theorem C10_witness :
    NewConfig ["api-server"] envBogusInterval flagParseNegBuffer parseDuration10s =
      .error ("time: invalid duration " ++ "bogus") :=
  (C10_duration_error_rejected_counts_not_validated ["api-server"] envBogusInterval
    flagParseNegBuffer parseDuration10s foNegBuffer (by decide) rfl).1
    ("time: invalid duration " ++ "bogus") rfl
